import Mathlib

/-!
Verification of the conversational intake engine of the tpsq_backend
repository (`public_square/whatsapp_conversation.py`, `public_square/services.py`,
`public_square/models.py`), shallowly embedded in Lean.

Conventions of the embedding:

* Python strings are Lean `String`s; `s[:n]` is `py_slice`, `len` is
  `String.length` (both count unicode scalars, as Python does), `in` on
  strings is `str_contains`, `.lower()` is `py_lower`, `.strip()` is
  `py_strip`.
* The Django cache (session store) is an association list from key to
  value paired with an absolute expiry instant; `cache.set(k, v, 3600)`
  stores expiry `now + 3600` and `cache.get` returns the default once
  `now` reaches the expiry, mirroring TTL semantics.
* Database tables (`WhatsAppMessage`, `User`, `Issue`, `Category`) are
  lists of records inside a `World`; uniqueness of
  `WhatsAppMessage.message_id` is what `get_or_create` keys on.
* Exceptions that the Python code can raise and catch are made explicit:
  missing payload fields surface as `Except.error` (Python `KeyError`)
  from `extract_content`, and the two fallible collaborator calls
  (user lookup/creation, `IssueService.create_issue`) are modelled by the
  failure-injection flags `fail_user_op` / `fail_create_issue` of the
  `World`; `create_issue` runs inside `transaction.atomic`, so a failed
  creation leaves no partial write, which the model reflects by branching
  before any write.
* Outbound WhatsApp traffic is recorded in `World.outbox`; the gateway
  (`_send_whatsapp_message`) never raises (it catches internally).
-/

namespace TPSQ

/-! ### String helpers mirroring Python primitives -/

/-- The apostrophe character, used to assemble message texts. -/
def apostrophe : String := (Char.ofNat 39).toString

/-- Contiguous-sublist test on character lists. -/
def chars_infix_of (needle : List Char) : List Char → Bool
  | [] => needle.isEmpty
  | c :: rest => needle.isPrefixOf (c :: rest) || chars_infix_of needle rest

/-- Python `needle in hay` on strings: substring test. -/
def str_contains (hay needle : String) : Bool :=
  chars_infix_of needle.toList hay.toList

/-- Python `s[:n]`: the first `n` characters of `s`. -/
def py_slice (s : String) (n : Nat) : String :=
  String.mk (s.toList.take n)

/-- Python `s.lower()`: lowercase every character. -/
def py_lower (s : String) : String :=
  String.mk (s.toList.map Char.toLower)

/-- Python `s.upper()`: uppercase every character. -/
def py_upper (s : String) : String :=
  String.mk (s.toList.map Char.toUpper)

/-- Python `s.strip()`: drop whitespace from both ends. -/
def py_strip (s : String) : String :=
  String.mk
    (((s.toList.dropWhile Char.isWhitespace).reverse.dropWhile
        Char.isWhitespace).reverse)

/-- Python `str(pk).split("-")[0]`: the segment before the first dash. -/
def before_first_dash (s : String) : String :=
  String.mk (s.toList.takeWhile (fun c => !(c == '-')))

/-- Python `s[-n:]`: the last `n` characters of `s`. -/
def py_tail_slice (s : String) (n : Nat) : String :=
  String.mk (s.toList.drop (s.toList.length - n))

/-- One step of Python `str.title()`: uppercase a letter that follows a
non-letter, lowercase the other letters. -/
def py_title_go : Bool → List Char → List Char
  | _, [] => []
  | prevAlpha, c :: cs =>
    let isA := c.isAlpha
    let c2 := if isA && !prevAlpha then c.toUpper else if isA then c.toLower else c
    c2 :: py_title_go isA cs

/-- Python `str.title()`. -/
def py_title (s : String) : String :=
  String.mk (py_title_go false s.toList)

/-- Python `s.split(" ", 1)` packaged as (head, rest): break at the
first space; rest is `""` when there is no space. -/
def split_first_space (s : String) : String × String :=
  let cs := s.toList
  let head := cs.takeWhile (fun c => !(c == ' '))
  let rest := cs.dropWhile (fun c => !(c == ' '))
  (String.mk head, String.mk (rest.drop 1))

/-! ### Data model (`public_square/models.py`) -/

/-- `Category` (models.py): the fields the intake engine reads. -/
structure CategoryRec where
  name : String
  slug : String
  is_active : Bool
deriving Repr, DecidableEq

/-- `User` (models.py): the fields the intake engine reads or writes.
`location` is a blank-able CharField, `""` when unset. -/
structure UserRec where
  username : String
  first_name : String
  last_name : String
  phone_number : String
  location : String
deriving Repr, DecidableEq

/-- `User.full_name` property (models.py line 55). -/
def UserRec.full_name (u : UserRec) : String :=
  if u.first_name ≠ "" ∧ u.last_name ≠ "" then
    u.first_name ++ " " ++ u.last_name
  else u.username

/-- `Issue` (models.py): the fields touched by the intake path.
`pk` is the UUID primary key rendered as a string; `created_year` stands
for `created_at.year`, fixed at creation. `category` keeps the resolved
`Category` row (or `none`). -/
structure Issue where
  pk : String
  created_year : Nat
  title : String
  content : String
  author : String
  category : Option CategoryRec
  assigned_agency : Option String
  status : String
  location : String
  source : String
  whatsapp_message_id : Option String
  whatsapp_sender_number : Option String
deriving Repr, DecidableEq

/-- `Issue.issue_number` property (models.py line 251):
`str(created_at.year) + str(pk).split("-")[0].upper()`. -/
def Issue.issue_number (i : Issue) : String :=
  toString i.created_year ++ py_upper (before_first_dash i.pk)

/-- `Issue.get_status_display()` for the statuses reachable here. -/
def get_status_display : String → String
  | "pending" => "Pending"
  | "acknowledged" => "Acknowledged"
  | "in_progress" => "In Progress"
  | "resolved" => "Resolved"
  | "closed" => "Closed"
  | s => s

/-- `WhatsAppMessage` (models.py line 471). `user` and `created_issue`
hold the username / issue pk of the linked rows; `processing_error` is a
blank-able TextField. -/
structure WhatsAppMsg where
  message_id : String
  phone_number : String
  message_type : String
  content : String
  user : Option String
  created_issue : Option String
  is_processed : Bool
  processing_error : String
deriving Repr, DecidableEq

/-- The temporary per-sender draft dict kept in the cache under
`whatsapp_temp_{phone}`; the engine only ever sets the three keys
`issue_description`, `location` and `category` (absent keys are `none`;
the empty dict `{}` has all three absent). -/
structure TempData where
  issue_description : Option String := none
  location : Option String := none
  category : Option String := none
deriving Repr, DecidableEq

/-- The dict keys `_store_temp_data` is called with. -/
inductive TempKey where
  | issue_description
  | location
  | category
deriving Repr, DecidableEq

/-- `temp_data[key] = value`. -/
def TempData.set (d : TempData) : TempKey → String → TempData
  | .issue_description, v => { d with issue_description := some v }
  | .location, v => { d with location := some v }
  | .category, v => { d with category := some v }

/-! ### Content classifier (`whatsapp_conversation.py` lines 131-147, 631-753) -/

/-- `_is_greeting` vocabulary (lines 134-146). -/
def greetings : List String :=
  ["hi", "hello", "hey", "good morning", "good afternoon", "good evening",
   "hola", "start", "begin", "help", "info"]

/-- `_is_greeting` (line 131): exact case-insensitive match. -/
def is_greeting (content : String) : Bool :=
  greetings.contains (py_strip (py_lower content))

/-- `_is_issue_report` keyword set (lines 639-664). -/
def issue_keywords : List String :=
  ["problem", "issue", "broken", "not working", "damage", "repair",
   "water", "electricity", "road", "pothole", "trash", "garbage",
   "security", "crime", "emergency", "help", "complaint", "report",
   "flooding", "burst", "outage", "fault", "blocked", "overflow"]

/-- `_is_issue_report` (line 631): trimmed length at least 10 and at
least one domain keyword as a substring of the lowercased content. -/
def is_issue_report (content : String) : Bool :=
  if (py_strip content).length < 10 then false
  else issue_keywords.any (fun k => str_contains (py_lower content) k)

/-- `_extract_location` gazetteer (lines 673-690). -/
def fct_locations : List String :=
  ["Kubwa", "Gwarinpa", "Garki", "Wuse", "Maitama", "Asokoro",
   "Utako", "Jabi", "Life Camp", "Karu", "Nyanya", "Gwagwalada",
   "Airport Road", "Ahmadu Bello Way", "Constitution Avenue"]

/-- `_extract_location` (line 669): first gazetteer entry occurring
case-insensitively in the content. -/
def extract_location (content : String) : Option String :=
  fct_locations.find? (fun loc => str_contains (py_lower content) (py_lower loc))

/-- `_auto_categorize_content` keyword table (lines 705-742), in the
stable iteration order of the Python dict literal. -/
def category_keywords : List (String × List String) :=
  [("water", ["water", "pipe", "burst", "leak", "borehole", "tap",
              "drainage", "sewage"]),
   ("electricity", ["light", "power", "electricity", "transformer",
                    "cable", "outage"]),
   ("roads", ["road", "pothole", "traffic", "bridge", "street", "highway"]),
   ("security", ["security", "crime", "robbery", "theft", "police", "safety"]),
   ("healthcare", ["hospital", "clinic", "health", "medical", "doctor",
                   "ambulance"]),
   ("environment", ["waste", "garbage", "trash", "cleaning", "pollution",
                    "dump"])]

/-- Loop body of `_auto_categorize_content` (lines 746-751): for the
first table row whose keyword matches, look the slug up among the active
categories; on `Category.DoesNotExist` the Python `continue` moves to the
next table row. -/
def auto_categorize_go (cats : List CategoryRec) (content_lower : String) :
    List (String × List String) → Option CategoryRec
  | [] => none
  | (slug, kws) :: rest =>
    if kws.any (fun k => str_contains content_lower k) then
      match cats.find? (fun c => c.slug == slug && c.is_active) with
      | some c => some c
      | none => auto_categorize_go cats content_lower rest
    else auto_categorize_go cats content_lower rest

/-- `_auto_categorize_content` (line 699). -/
def auto_categorize (cats : List CategoryRec) (content : String) :
    Option CategoryRec :=
  auto_categorize_go cats (py_lower content) category_keywords

/-! ### Outbound gateway traffic -/

/-- One outbound WhatsApp payload: a plain text body, an interactive
button message (`send_interactive_welcome`, confirmation prompt), or an
interactive list message (`_send_category_selection`); the id lists are
the reply/row identifiers offered. -/
inductive OutMsg where
  | text (recipient body : String)
  | buttons (recipient body : String) (button_ids : List String)
  | list (recipient body : String) (row_ids : List String)
deriving Repr, DecidableEq

/-! ### World state

One `World` bundles the collaborators the engine touches: the database
tables, the Django cache (session store), the outbox, the clock, the
ambient settings, and the failure-injection flags for the two fallible
collaborator calls. -/

structure World where
  /-- Current time in seconds (cache TTL arithmetic). -/
  now : Nat
  /-- `timezone.now().year`, read by `Issue.issue_number`. -/
  year : Nat
  /-- `WhatsAppMessage` table; `message_id` is unique. -/
  ledger : List WhatsAppMsg
  /-- `User` table. -/
  users : List UserRec
  /-- Cache entries `whatsapp_state_{phone}`: phone, state, expiry instant. -/
  state_cache : List (String × String × Nat)
  /-- Cache entries `whatsapp_temp_{phone}`: phone, draft dict, expiry instant. -/
  temp_cache : List (String × TempData × Nat)
  /-- `Issue` table. -/
  issues : List Issue
  /-- Supply of fresh UUID primary keys, consumed head first. -/
  uuid_seq : List String
  /-- Messages handed to the outbound gateway, oldest first. -/
  outbox : List OutMsg
  /-- `Category` table. -/
  categories : List CategoryRec
  /-- `category.agencies.filter(is_active=True).first()`: slug to agency name. -/
  agency_for : List (String × String)
  /-- `settings.FRONTEND_URL`. -/
  frontend_url : String
  /-- Injected failure: `IssueService.create_issue` raises. -/
  fail_create_issue : Bool
  /-- Injected failure: `_find_or_create_user_from_whatsapp` raises. -/
  fail_user_op : Bool

/-! ### Session store (`whatsapp_conversation.py` lines 556-594) -/

/-- The cache timeout passed to every `cache.set` (3600 seconds). -/
def cache_ttl : Nat := 3600

/-- Raw lookup of the `whatsapp_state_{phone}` cache entry. -/
def lookup_state (w : World) (phone : String) : Option (String × Nat) :=
  (w.state_cache.find? (fun e => e.1 == phone)).map (fun e => e.2)

/-- `_get_conversation_state` (line 557): cached value while unexpired,
default `"greeting"` otherwise. -/
def get_conversation_state (w : World) (phone : String) : String :=
  match lookup_state w phone with
  | some (s, expiry) => if w.now < expiry then s else "greeting"
  | none => "greeting"

/-- Insert-or-replace in an association list keyed by a string. -/
def set_assoc {α : Type} (l : List (String × α)) (k : String) (v : α) :
    List (String × α) :=
  if l.any (fun e => e.1 == k) then
    l.map (fun e => if e.1 == k then (k, v) else e)
  else l ++ [(k, v)]

/-- `_set_conversation_state` (line 564): `cache.set(key, state, 3600)`. -/
def set_conversation_state (w : World) (phone state : String) : World :=
  { w with state_cache := set_assoc w.state_cache phone (state, w.now + cache_ttl) }

/-- Raw lookup of the `whatsapp_temp_{phone}` cache entry. -/
def lookup_temp (w : World) (phone : String) : Option (TempData × Nat) :=
  (w.temp_cache.find? (fun e => e.1 == phone)).map (fun e => e.2)

/-- `_get_temp_data` (line 581): cached dict while unexpired, `{}`
otherwise. -/
def get_temp_data (w : World) (phone : String) : TempData :=
  match lookup_temp w phone with
  | some (d, expiry) => if w.now < expiry then d else {}
  | none => {}

/-- `_store_temp_data` (line 571): read the dict (default `{}`), set one
key, write it back with a fresh TTL. -/
def store_temp_data (w : World) (phone : String) (k : TempKey) (v : String) :
    World :=
  { w with
    temp_cache :=
      set_assoc w.temp_cache phone ((get_temp_data w phone).set k v, w.now + cache_ttl) }

/-- `_clear_temp_data` (line 588): delete both the temp entry and the
state entry for the sender. -/
def clear_temp_data (w : World) (phone : String) : World :=
  { w with
    temp_cache := w.temp_cache.filter (fun e => !(e.1 == phone)),
    state_cache := w.state_cache.filter (fun e => !(e.1 == phone)) }

/-! ### Inbound webhook payload (`whatsapp_conversation.py` lines 24-74)

JSON field access `d["k"]` raises `KeyError` when the key is absent, so
every accessed key is an `Option`; list indexing `l[0]` raises
`IndexError` on an empty list. -/

/-- One entry of `value["contacts"]`: `wa_id` plus the optional
`profile.name`. -/
structure Contact where
  wa_id : String
  profile_name : Option String
deriving Repr, DecidableEq

/-- `message["interactive"]`: the optional `button_reply.id` and
`list_reply.id`. -/
structure InteractivePayload where
  button_reply : Option String
  list_reply : Option String
deriving Repr, DecidableEq

/-- One entry of `value["messages"]`. `mtype` is the JSON key `"type"`;
`text_body` is `message["text"]["body"]`; a `none` marks the key as
absent from the payload. -/
structure RawMessage where
  id : Option String
  from_number : Option String
  mtype : Option String
  text_body : Option String
  interactive : Option InteractivePayload
deriving Repr, DecidableEq

/-- `entry["changes"][j]` with its `value` dict: `value["messages"]`
(`none` when the key is absent) and `value.get("contacts", [])`. -/
structure WebhookChange where
  value_messages : Option (List RawMessage)
  value_contacts : List Contact
deriving Repr, DecidableEq

/-- `webhook_data["entry"][i]`. -/
structure WebhookEntry where
  changes : List WebhookChange
deriving Repr, DecidableEq

/-- The whole webhook body. -/
structure WebhookData where
  entry : List WebhookEntry
deriving Repr, DecidableEq

/-! ### Outbound message texts (`whatsapp_conversation.py`) -/

/-- Body of the interactive welcome (lines 191-220). -/
def welcome_body : String :=
  "🏛️ *Welcome to FCT Public Square*\n\nReport civic issues and track their resolution. How would you like to proceed?"

/-- The reply-button ids of the interactive welcome. -/
def welcome_button_ids : List String :=
  ["report_new", "see_examples", "track_issue"]

/-- The location prompt (lines 234-244). -/
def location_message : String :=
  "📍 *Great! Now please provide the location.*\n\nWhere exactly is this issue occurring?\n\n*Examples:*\n• \"Kubwa Phase 2, near Unity Bank\"\n• \"Airport Road, opposite Shoprite\"\n• \"Gwarinpa Estate, Block 5\"\n• \"Garki Area 7, behind NNPC Towers\"\n\nPlease be as specific as possible to help our response teams locate the issue quickly."

/-- Body of the category selection list (lines 278-333). -/
def category_menu_body : String :=
  "🏷️ *Please select the category that best describes your issue:*"

/-- The row ids of the category selection list. -/
def category_row_ids : List String :=
  ["water", "roads", "electricity", "healthcare", "security", "environment"]

/-- The confirmation summary (lines 361-375). -/
def confirmation_body (issue_description location category_name reporter : String) :
    String :=
  "📋 *Please confirm your issue report:*\n\n*Issue Description:*\n" ++
    issue_description ++ "\n\n*Location:*\n" ++ location ++ "\n\n*Category:*\n" ++
    category_name ++ "\n\n*Reporter:*\n" ++ reporter ++
    "\n\nIs this information correct?"

/-- The reply-button ids of the confirmation prompt. -/
def confirmation_button_ids : List String := ["confirm_yes", "confirm_no"]

/-- Everything of the success confirmation before the issue number
(line 430). -/
def success_head : String :=
  "✅ *Issue Successfully Reported!*\n\n*Issue ID:* #"

/-- Everything of the success confirmation after the issue number
(lines 432-449). -/
def success_rest (frontend_url : String) (i : Issue) : String :=
  "\n*Status:* " ++ get_status_display i.status ++ "\n*Category:* " ++
    ((i.category.map CategoryRec.name).getD "General") ++ "\n*Location:* " ++
    i.location ++ "\n\n" ++
    (match i.assigned_agency with
     | some a => "*Assigned to:* " ++ a
     | none => "*Status:* Under review") ++
    "\n\n🔗 *Track online:* " ++ frontend_url ++ "/issues/" ++ i.pk ++
    "\n\n*What happens next?*\n1️⃣ Your issue will be reviewed within 24 hours\n2️⃣ The relevant agency will be notified\n3️⃣ You" ++
    apostrophe ++
    "ll receive updates on progress\n4️⃣ Track resolution on our website\n\nThank you for helping improve FCT! 🇳🇬\n\n_Reply *\"new\"* to report another issue or *\"track [Issue ID]\"* to check status._"

/-- The success confirmation sent after `confirm_yes` (lines 430-449). -/
def success_message (frontend_url : String) (i : Issue) : String :=
  success_head ++ i.issue_number ++ success_rest frontend_url i

/-- The retry prompt sent when issue creation fails (lines 465-469). -/
def creation_error_message : String :=
  "❌ *Error creating your issue report.*\n\nPlease try again or visit our website directly. If the problem persists, contact our support team.\n\nReply *\"start\"* to try again."

/-- The prompt sent on an unrecognized confirmation reply (lines 481-484). -/
def invalid_confirmation_message : String :=
  "❓ Please select one of the options:\n            \n✅ *Yes, Submit* - to create your issue report\n❌ *No, Start Over* - to start again"

/-- The re-prompt sent when a message in `waiting_issue` is not an issue
report (lines 538-550). -/
def help_message : String :=
  "❓ *I need more details to help you report this issue.*\n\nPlease describe the problem you" ++
    apostrophe ++
    "re experiencing in detail. Include:\n\n🔍 *What* is the problem?\n📍 *Where* is it located?\n⏰ *When* did you notice it?\n🎯 *How* is it affecting you or your community?\n\n*Example:*\n\"Water pipe burst on Kubwa Main Road near First Bank. Water has been flowing for 2 days and the road is flooded, making it difficult for cars to pass.\"\n\nPlease try describing your issue again:"

/-- The confirmation sent after a direct issue report
(`_send_issue_confirmation`, lines 795-813). -/
def direct_confirmation_message (frontend_url : String) (i : Issue) : String :=
  "✅ *Issue Reported Successfully!*\n\n*Issue ID:* #" ++ i.issue_number ++
    "\n*Category:* " ++ ((i.category.map CategoryRec.name).getD "General") ++
    "\n*Location:* " ++ i.location ++ "\n*Status:* " ++
    get_status_display i.status ++ "\n\n" ++
    (match i.assigned_agency with
     | some a => "*Assigned to:* " ++ a
     | none => "") ++
    "\n\n🔗 *Track online:* " ++ frontend_url ++ "/issues/" ++ i.pk ++
    "\n\nThank you for helping improve FCT! 🏛️\n\n_Reply *\"new\"* to report another issue._"

/-- `send_message` (line 617): queue a plain text payload. -/
def send_message (w : World) (recipient body : String) : World :=
  { w with outbox := w.outbox ++ [OutMsg.text recipient body] }

/-- `_send_interactive_welcome` (line 187). -/
def send_interactive_welcome (w : World) (phone : String) : World :=
  { w with outbox := w.outbox ++ [OutMsg.buttons phone welcome_body welcome_button_ids] }

/-- `_send_category_selection` (line 274). -/
def send_category_selection (w : World) (phone : String) : World :=
  { w with outbox := w.outbox ++ [OutMsg.list phone category_menu_body category_row_ids] }

/-! ### Issue intake pipeline (`services.py` lines 36-95) -/

/-- `Category.objects.get(slug=category_slug, is_active=True)` with
`DoesNotExist` mapped to `none` (services.py lines 53-56). -/
def resolve_category (cats : List CategoryRec) (category_slug : Option String) :
    Option CategoryRec :=
  match category_slug with
  | some s => cats.find? (fun c => c.slug == s && c.is_active)
  | none => none

/-- `issue.assign_to_agency()` (models.py line 278): when a category is
set and an active agency handles it, set the agency and move the status
to `acknowledged`. -/
def assign_agency (w : World) (i : Issue) : Issue :=
  match i.category with
  | some c =>
    match (w.agency_for.find? (fun e => e.1 == c.slug)).map (fun e => e.2) with
    | some a => { i with assigned_agency := some a, status := "acknowledged" }
    | none => i
  | none => i

/-- `IssueService.create_issue` (services.py line 36): resolve the
category, create the issue row, then auto-assign. The author-metric
update, trend extraction and notification fan-out mutate nothing the
engine reads. -/
def create_issue (w : World) (author : UserRec) (title content : String)
    (category_slug : Option String) (location source : String)
    (wa_message_id wa_phone : Option String) : Issue × World :=
  let issue0 : Issue :=
    { pk := w.uuid_seq.headD "", created_year := w.year, title := title,
      content := content, author := author.username,
      category := resolve_category w.categories category_slug,
      assigned_agency := none, status := "pending", location := location,
      source := source, whatsapp_message_id := wa_message_id,
      whatsapp_sender_number := wa_phone }
  let issue := assign_agency w issue0
  (issue, { w with issues := w.issues ++ [issue], uuid_seq := w.uuid_seq.tail })

/-! ### User resolution (`whatsapp_conversation.py` lines 755-793) -/

/-- The profile name of the first contact entry matching the sender,
defaulting to `"WhatsApp User"`. -/
def contact_name_for (contacts : List Contact) (phone : String) : String :=
  match contacts.find? (fun c => c.wa_id == phone) with
  | some c => c.profile_name.getD "WhatsApp User"
  | none => "WhatsApp User"

/-- The username-uniquifying loop (lines 773-778): try `base`, then
`base_1`, `base_2`, ... and keep the first unused one. -/
def fresh_username (users : List UserRec) (base : String) : String :=
  ((base :: (List.range users.length).map
      (fun n => base ++ "_" ++ toString (n + 1))).find?
    (fun cand => users.all (fun u => !(u.username == cand)))).getD base

/-- `_find_or_create_user_from_whatsapp` (line 755). -/
def find_or_create_user (w : World) (phone : String) (contacts : List Contact) :
    UserRec × World :=
  match w.users.find? (fun u => u.phone_number == phone) with
  | some u => (u, w)
  | none =>
    let contact_name := contact_name_for contacts phone
    let username := fresh_username w.users ("whatsapp_" ++ py_tail_slice phone 8)
    let parts := split_first_space contact_name
    let u : UserRec :=
      { username := username, first_name := parts.1, last_name := parts.2,
        phone_number := phone, location := "" }
    (u, { w with users := w.users ++ [u] })

/-! ### Result dictionaries -/

/-- The result dict returned for one processed message, one constructor
per `return {...}` site of `_process_single_message_with_flow` and its
handlers; `error_id` is the generic inner-level catch (line 129) and
`direct_error` the catch of `_handle_direct_issue_report` (line 532). -/
inductive PResult where
  | duplicate (message_id : String)
  | error_id (message_id error : String)
  | greeting_sent (phone next_state : String)
  | location_requested (phone next_state : String)
  | category_selection_sent (phone next_state : String)
  | confirmation_sent (phone next_state : String)
  | issue_created (phone issue_id issue_number : String)
  | creation_error (error : String)
  | invalid_confirmation
  | direct_issue_created (phone issue_id : String)
  | direct_error (error : String)
  | help_sent (phone : String)
deriving Repr, DecidableEq

/-- The `status` entry of the result dict. -/
def PResult.status : PResult → String
  | .duplicate _ => "duplicate"
  | .error_id _ _ => "error"
  | .greeting_sent _ _ => "greeting_sent"
  | .location_requested _ _ => "location_requested"
  | .category_selection_sent _ _ => "category_selection_sent"
  | .confirmation_sent _ _ => "confirmation_sent"
  | .issue_created _ _ _ => "issue_created"
  | .creation_error _ => "creation_error"
  | .invalid_confirmation => "invalid_confirmation"
  | .direct_issue_created _ _ => "direct_issue_created"
  | .direct_error _ => "error"
  | .help_sent _ => "help_sent"

/-- The result dict of `process_incoming_message` (lines 34, 45-49, 52). -/
inductive BatchResult where
  | no_messages
  | success (processed_count : Nat) (results : List PResult)
  | error (message : String)
deriving Repr, DecidableEq

/-- The `status` entry of the batch result dict. -/
def BatchResult.status : BatchResult → String
  | .no_messages => "no_messages"
  | .success _ _ => "success"
  | .error _ => "error"

/-! ### Ledger helpers -/

/-- Rewrite the ledger row with the given `message_id`
(an ORM `save()` on a loaded row). -/
def ledger_update (w : World) (mid : String) (f : WhatsAppMsg → WhatsAppMsg) :
    World :=
  { w with ledger := w.ledger.map (fun x => if x.message_id == mid then f x else x) }

/-- Whether a ledger row with this provider identifier exists. -/
def ledger_has (w : World) (mid : String) : Bool :=
  w.ledger.any (fun x => x.message_id == mid)

/-! ### Conversation flow handlers (`whatsapp_conversation.py`) -/

/-- `_handle_greeting` (line 149): set state `waiting_issue`, send the
interactive welcome. (The long `welcome_message` literal it builds is
never sent — only the interactive payload goes out.) -/
def handle_greeting (w : World) (phone : String) (_user : UserRec) :
    World × PResult :=
  let w := set_conversation_state w phone "waiting_issue"
  let w := send_interactive_welcome w phone
  (w, .greeting_sent phone "waiting_issue")

/-- `_handle_issue_description` (line 224): stash the description, ask
for the location, move to `waiting_location`. -/
def handle_issue_description (w : World) (phone content : String)
    (_user : UserRec) : World × PResult :=
  let w := store_temp_data w phone .issue_description content
  let w := send_message w phone location_message
  let w := set_conversation_state w phone "waiting_location"
  (w, .location_requested phone "waiting_location")

/-- `_handle_location_input` (line 255): stash the location, send the
category menu, move to `waiting_category`. -/
def handle_location_input (w : World) (phone location : String)
    (_user : UserRec) : World × PResult :=
  let w := store_temp_data w phone .location location
  let w := send_category_selection w phone
  let w := set_conversation_state w phone "waiting_category"
  (w, .category_selection_sent phone "waiting_category")

/-- `_handle_category_selection` (line 337): stash whatever selector
arrived, build the summary (category name from the table when the slug
resolves, else `category_id.title()`), send the confirm/restart buttons,
move to `confirmation`. -/
def handle_category_selection (w : World) (phone category_id : String)
    (user : UserRec) : World × PResult :=
  let w := store_temp_data w phone .category category_id
  let temp := get_temp_data w phone
  let issue_description := temp.issue_description.getD ""
  let location := temp.location.getD ""
  let category_name :=
    match w.categories.find? (fun c => c.slug == category_id) with
    | some c => c.name
    | none => py_title category_id
  let body := confirmation_body issue_description location category_name
    user.full_name
  let w := { w with outbox := w.outbox ++ [OutMsg.buttons phone body confirmation_button_ids] }
  let w := set_conversation_state w phone "confirmation"
  (w, .confirmation_sent phone "confirmation")

/-- The title built on the step-by-step submission path (line 421):
`temp_data["issue_description"][:100] + "..."` — the ellipsis is appended
unconditionally. -/
def confirmation_title (issue_description : String) : String :=
  py_slice issue_description 100 ++ "..."

/-- The title built on the direct-report path (line 507):
`content[:100] + "..." if len(content) > 100 else content`. -/
def direct_title (content : String) : String :=
  if content.length > 100 then py_slice content 100 ++ "..." else content

/-- `_handle_confirmation` (line 408). On `confirm_yes` the draft dict is
read and indexed (`temp_data["issue_description"]` etc. — a missing key
raises `KeyError` inside the `try`, landing in the same handler as a
`create_issue` failure); on success the success text is sent, the session
is cleared and the state set to `complete`; on failure only the retry
prompt is sent. `confirm_no` clears the draft and re-greets; anything
else re-prompts. -/
def handle_confirmation (w : World) (phone response : String) (user : UserRec) :
    World × PResult :=
  if response == "confirm_yes" then
    let temp := get_temp_data w phone
    match temp.issue_description, temp.category, temp.location with
    | some desc, some cat, some loc =>
      if w.fail_create_issue then
        let w := send_message w phone creation_error_message
        (w, .creation_error "create_issue raised")
      else
        let ci := create_issue w user (confirmation_title desc) desc
          (some cat) loc "whatsapp" none (some phone)
        let issue := ci.1
        let w := ci.2
        let w := send_message w phone (success_message w.frontend_url issue)
        let w := clear_temp_data w phone
        let w := set_conversation_state w phone "complete"
        (w, .issue_created phone issue.pk issue.issue_number)
    | _, _, _ =>
      let w := send_message w phone creation_error_message
      (w, .creation_error "KeyError")
  else if response == "confirm_no" then
    let w := clear_temp_data w phone
    handle_greeting w phone user
  else
    let w := send_message w phone invalid_confirmation_message
    (w, .invalid_confirmation)

/-- `_handle_direct_issue_report` (line 489): location from the
gazetteer, else the user profile, else `"FCT"`; category auto-inferred;
title truncated only beyond 100 characters; on success the ledger row is
linked and marked processed and a confirmation is sent; a creation
failure returns an error dict with no outbound message and no error
recorded on the ledger row. -/
def handle_direct_issue_report (w : World) (phone content : String)
    (user : UserRec) (msg_id : String) : World × PResult :=
  let location :=
    match extract_location content with
    | some l => l
    | none => if user.location ≠ "" then user.location else "FCT"
  let category := auto_categorize w.categories content
  if w.fail_create_issue then
    (w, .direct_error "create_issue raised")
  else
    let ci := create_issue w user (direct_title content) content
      (category.map CategoryRec.slug)
      location "whatsapp" (some msg_id) (some phone)
    let issue := ci.1
    let w := ci.2
    let w := ledger_update w msg_id
      (fun x => { x with created_issue := some issue.pk, is_processed := true })
    let w := send_message w phone (direct_confirmation_message w.frontend_url issue)
    (w, .direct_issue_created phone issue.pk)

/-- `_handle_invalid_issue` (line 534): send the help prompt, change
nothing. -/
def handle_invalid_issue (w : World) (phone : String) : World × PResult :=
  let w := send_message w phone help_message
  (w, .help_sent phone)

/-! ### Message processing (`whatsapp_conversation.py` lines 24-129) -/

/-- Lines 58-74: extract `message_id`, `from` and the content; any
missing key raises `KeyError` (carried as `Except.error`), *before* any
side effect happens. -/
def extract_content (m : RawMessage) : Except String (String × String × String) :=
  match m.id with
  | none => .error "KeyError: id"
  | some message_id =>
    match m.from_number with
    | none => .error "KeyError: from"
    | some from_number =>
      match m.mtype with
      | none => .error "KeyError: type"
      | some mtype =>
        if mtype == "text" then
          match m.text_body with
          | none => .error "KeyError: text"
          | some b => .ok (message_id, from_number, py_strip b)
        else if mtype == "interactive" then
          match m.interactive with
          | none => .error "KeyError: interactive"
          | some i =>
            match i.button_reply with
            | some b => .ok (message_id, from_number, b)
            | none =>
              match i.list_reply with
              | some l => .ok (message_id, from_number, l)
              | none => .ok (message_id, from_number, "interactive_message")
        else .ok (message_id, from_number, "[" ++ mtype ++ "_message]")

/-- The state dispatch of `_process_single_message_with_flow`
(lines 96-124), after the ledger row exists and the user is attached. -/
def dispatch_state (w : World) (from_number content : String) (user : UserRec)
    (message_id : String) : World × PResult :=
  let conversation_state := get_conversation_state w from_number
  if conversation_state == "greeting" || is_greeting content then
    handle_greeting w from_number user
  else if conversation_state == "waiting_issue" then
    if is_issue_report content then
      handle_issue_description w from_number content user
    else
      handle_invalid_issue w from_number
  else if conversation_state == "waiting_location" then
    handle_location_input w from_number content user
  else if conversation_state == "waiting_category" then
    handle_category_selection w from_number content user
  else if conversation_state == "confirmation" then
    handle_confirmation w from_number content user
  else
    if is_issue_report content then
      handle_direct_issue_report w from_number content user message_id
    else
      handle_greeting w from_number user

/-- `_process_single_message_with_flow` (line 54) after extraction:
`get_or_create` on the message id (an existing row short-circuits to the
duplicate dict with no further side effect); then the inner `try`: user
resolution (whose injected failure lands in the generic catch of line
126, which records the error on the ledger row and returns an error dict
— sending nothing), attaching the user to the row, and the state
dispatch. -/
def incoming_row (message_id from_number content : String) : WhatsAppMsg :=
  { message_id := message_id, phone_number := from_number,
    message_type := "incoming", content := content, user := none,
    created_issue := none, is_processed := false, processing_error := "" }

/-- The `get_or_create` insert (lines 77-84). -/
def insert_message (w : World) (message_id from_number content : String) : World :=
  { w with ledger := w.ledger ++ [incoming_row message_id from_number content] }

def process_extracted (w : World) (message_id from_number content : String)
    (contacts : List Contact) : World × PResult :=
  if ledger_has w message_id then
    (w, .duplicate message_id)
  else
    let w := insert_message w message_id from_number content
    if w.fail_user_op then
      (ledger_update w message_id
        (fun x => { x with processing_error := "find_or_create_user raised" }),
       .error_id message_id "find_or_create_user raised")
    else
      let fu := find_or_create_user w from_number contacts
      let user := fu.1
      let w := fu.2
      let w := ledger_update w message_id
        (fun x => { x with user := some user.username })
      dispatch_state w from_number content user message_id

/-- `_process_single_message_with_flow` (line 54), extraction included. -/
def process_single (w : World) (m : RawMessage) (contacts : List Contact) :
    Except String (World × PResult) :=
  match extract_content m with
  | .error e => .error e
  | .ok (message_id, from_number, content) =>
    .ok (process_extracted w message_id from_number content contacts)

/-- The message loop of `process_incoming_message` (lines 41-43): an
exception escaping one message aborts the loop; the results accumulated
so far are discarded by the outer catch, the side effects of already
processed messages persist. -/
def process_batch (w : World) (msgs : List RawMessage)
    (contacts : List Contact) (acc : List PResult) : World × BatchResult :=
  match msgs with
  | [] => (w, .success acc.length acc)
  | m :: rest =>
    match process_single w m contacts with
    | .ok (w', r) => process_batch w' rest contacts (acc ++ [r])
    | .error e => (w, .error e)

/-- `process_incoming_message` (line 24): unwrap
`entry[0].changes[0].value` (an empty list raises `IndexError`, caught
into the error dict), return `no_messages` when the `messages` key is
absent, otherwise run the loop. -/
def process_incoming_message (w : World) (hook : WebhookData) :
    World × BatchResult :=
  match hook.entry.head? with
  | none => (w, .error "IndexError: entry")
  | some e =>
    match e.changes.head? with
    | none => (w, .error "IndexError: changes")
    | some c =>
      match c.value_messages with
      | none => (w, .no_messages)
      | some messages => process_batch w messages c.value_contacts []

/-! ### Helper lemmas

Projection facts about the intermediate worlds of a processing run, and
reductions of the dispatch to the handler selected by the session state. -/

lemma fu_state_cache (w : World) (p : String) (cs : List Contact) :
    ((find_or_create_user w p cs).2).state_cache = w.state_cache := by
  unfold find_or_create_user
  cases w.users.find? (fun u => u.phone_number == p) <;> rfl

lemma fu_temp_cache (w : World) (p : String) (cs : List Contact) :
    ((find_or_create_user w p cs).2).temp_cache = w.temp_cache := by
  unfold find_or_create_user
  cases w.users.find? (fun u => u.phone_number == p) <;> rfl

lemma fu_now (w : World) (p : String) (cs : List Contact) :
    ((find_or_create_user w p cs).2).now = w.now := by
  unfold find_or_create_user
  cases w.users.find? (fun u => u.phone_number == p) <;> rfl

lemma fu_year (w : World) (p : String) (cs : List Contact) :
    ((find_or_create_user w p cs).2).year = w.year := by
  unfold find_or_create_user
  cases w.users.find? (fun u => u.phone_number == p) <;> rfl

lemma fu_ledger (w : World) (p : String) (cs : List Contact) :
    ((find_or_create_user w p cs).2).ledger = w.ledger := by
  unfold find_or_create_user
  cases w.users.find? (fun u => u.phone_number == p) <;> rfl

lemma fu_issues (w : World) (p : String) (cs : List Contact) :
    ((find_or_create_user w p cs).2).issues = w.issues := by
  unfold find_or_create_user
  cases w.users.find? (fun u => u.phone_number == p) <;> rfl

lemma fu_uuid_seq (w : World) (p : String) (cs : List Contact) :
    ((find_or_create_user w p cs).2).uuid_seq = w.uuid_seq := by
  unfold find_or_create_user
  cases w.users.find? (fun u => u.phone_number == p) <;> rfl

lemma fu_outbox (w : World) (p : String) (cs : List Contact) :
    ((find_or_create_user w p cs).2).outbox = w.outbox := by
  unfold find_or_create_user
  cases w.users.find? (fun u => u.phone_number == p) <;> rfl

lemma fu_categories (w : World) (p : String) (cs : List Contact) :
    ((find_or_create_user w p cs).2).categories = w.categories := by
  unfold find_or_create_user
  cases w.users.find? (fun u => u.phone_number == p) <;> rfl

lemma fu_agency_for (w : World) (p : String) (cs : List Contact) :
    ((find_or_create_user w p cs).2).agency_for = w.agency_for := by
  unfold find_or_create_user
  cases w.users.find? (fun u => u.phone_number == p) <;> rfl

lemma fu_frontend_url (w : World) (p : String) (cs : List Contact) :
    ((find_or_create_user w p cs).2).frontend_url = w.frontend_url := by
  unfold find_or_create_user
  cases w.users.find? (fun u => u.phone_number == p) <;> rfl

lemma fu_fail_create_issue (w : World) (p : String) (cs : List Contact) :
    ((find_or_create_user w p cs).2).fail_create_issue = w.fail_create_issue := by
  unfold find_or_create_user
  cases w.users.find? (fun u => u.phone_number == p) <;> rfl

lemma gcs_congr (w w' : World) (p : String)
    (h1 : w'.state_cache = w.state_cache) (h2 : w'.now = w.now) :
    get_conversation_state w' p = get_conversation_state w p := by
  unfold get_conversation_state lookup_state
  rw [h1, h2]

lemma gtd_congr (w w' : World) (p : String)
    (h1 : w'.temp_cache = w.temp_cache) (h2 : w'.now = w.now) :
    get_temp_data w' p = get_temp_data w p := by
  unfold get_temp_data lookup_temp
  rw [h1, h2]

lemma process_single_ok (w : World) (m : RawMessage) (cs : List Contact)
    (mid frm cnt : String) (hx : extract_content m = .ok (mid, frm, cnt)) :
    process_single w m cs = .ok (process_extracted w mid frm cnt cs) := by
  unfold process_single
  rw [hx]

/-- The user `_process_single_message_with_flow` resolves for a fresh
message (proof abbreviation). -/
def attached_user (w : World) (mid frm cnt : String) (cs : List Contact) :
    UserRec :=
  (find_or_create_user (insert_message w mid frm cnt) frm cs).1

/-- The world reaching the state dispatch for a fresh message: row
inserted, user resolved and attached (proof abbreviation). -/
def attached_world (w : World) (mid frm cnt : String) (cs : List Contact) :
    World :=
  ledger_update (find_or_create_user (insert_message w mid frm cnt) frm cs).2 mid
    (fun x => { x with user := some (attached_user w mid frm cnt cs).username })

lemma attached_state_cache (w : World) (mid frm cnt : String)
    (cs : List Contact) :
    (attached_world w mid frm cnt cs).state_cache = w.state_cache := by
  unfold attached_world ledger_update
  exact fu_state_cache (insert_message w mid frm cnt) frm cs

lemma attached_temp_cache (w : World) (mid frm cnt : String)
    (cs : List Contact) :
    (attached_world w mid frm cnt cs).temp_cache = w.temp_cache := by
  unfold attached_world ledger_update
  exact fu_temp_cache (insert_message w mid frm cnt) frm cs

lemma attached_now (w : World) (mid frm cnt : String) (cs : List Contact) :
    (attached_world w mid frm cnt cs).now = w.now := by
  unfold attached_world ledger_update
  exact fu_now (insert_message w mid frm cnt) frm cs

lemma attached_year (w : World) (mid frm cnt : String) (cs : List Contact) :
    (attached_world w mid frm cnt cs).year = w.year := by
  unfold attached_world ledger_update
  exact fu_year (insert_message w mid frm cnt) frm cs

lemma attached_issues (w : World) (mid frm cnt : String) (cs : List Contact) :
    (attached_world w mid frm cnt cs).issues = w.issues := by
  unfold attached_world ledger_update
  exact fu_issues (insert_message w mid frm cnt) frm cs

lemma attached_uuid_seq (w : World) (mid frm cnt : String) (cs : List Contact) :
    (attached_world w mid frm cnt cs).uuid_seq = w.uuid_seq := by
  unfold attached_world ledger_update
  exact fu_uuid_seq (insert_message w mid frm cnt) frm cs

lemma attached_outbox (w : World) (mid frm cnt : String) (cs : List Contact) :
    (attached_world w mid frm cnt cs).outbox = w.outbox := by
  unfold attached_world ledger_update
  exact fu_outbox (insert_message w mid frm cnt) frm cs

lemma attached_categories (w : World) (mid frm cnt : String) (cs : List Contact) :
    (attached_world w mid frm cnt cs).categories = w.categories := by
  unfold attached_world ledger_update
  exact fu_categories (insert_message w mid frm cnt) frm cs

lemma attached_agency_for (w : World) (mid frm cnt : String) (cs : List Contact) :
    (attached_world w mid frm cnt cs).agency_for = w.agency_for := by
  unfold attached_world ledger_update
  exact fu_agency_for (insert_message w mid frm cnt) frm cs

lemma attached_frontend_url (w : World) (mid frm cnt : String) (cs : List Contact) :
    (attached_world w mid frm cnt cs).frontend_url = w.frontend_url := by
  unfold attached_world ledger_update
  exact fu_frontend_url (insert_message w mid frm cnt) frm cs

lemma attached_fail_create_issue (w : World) (mid frm cnt : String)
    (cs : List Contact) :
    (attached_world w mid frm cnt cs).fail_create_issue = w.fail_create_issue := by
  unfold attached_world ledger_update
  exact fu_fail_create_issue (insert_message w mid frm cnt) frm cs

lemma attached_gcs (w : World) (mid frm cnt : String) (cs : List Contact)
    (q : String) :
    get_conversation_state (attached_world w mid frm cnt cs) q =
      get_conversation_state w q :=
  gcs_congr w _ q (attached_state_cache w mid frm cnt cs)
    (attached_now w mid frm cnt cs)

lemma attached_gtd (w : World) (mid frm cnt : String) (cs : List Contact)
    (q : String) :
    get_temp_data (attached_world w mid frm cnt cs) q = get_temp_data w q :=
  gtd_congr w _ q (attached_temp_cache w mid frm cnt cs)
    (attached_now w mid frm cnt cs)

/-- With a fresh identifier and no user failure, processing is the
dispatch on the world with the row inserted and the user attached. -/
lemma process_extracted_fresh (w : World) (mid frm cnt : String)
    (cs : List Contact) (hfresh : ledger_has w mid = false)
    (hops : w.fail_user_op = false) :
    process_extracted w mid frm cnt cs =
      dispatch_state (attached_world w mid frm cnt cs) frm cnt
        (attached_user w mid frm cnt cs) mid := by
  unfold process_extracted attached_world attached_user
  rw [hfresh]
  have hops' : (insert_message w mid frm cnt).fail_user_op = false := hops
  simp only [Bool.false_eq_true, if_false, hops']

/-- With a fresh identifier and a user failure, processing records the
error on the new row and returns the error dict. -/
lemma process_extracted_user_failure (w : World) (mid frm cnt : String)
    (cs : List Contact) (hfresh : ledger_has w mid = false)
    (hops : w.fail_user_op = true) :
    process_extracted w mid frm cnt cs =
      (ledger_update (insert_message w mid frm cnt) mid
        (fun x => { x with processing_error := "find_or_create_user raised" }),
       .error_id mid "find_or_create_user raised") := by
  unfold process_extracted
  rw [hfresh]
  have hops' : (insert_message w mid frm cnt).fail_user_op = true := hops
  simp only [Bool.false_eq_true, if_false, hops', if_true]

lemma dispatch_greeting_state (w : World) (frm cnt : String) (user : UserRec)
    (mid : String) (hstate : get_conversation_state w frm = "greeting") :
    dispatch_state w frm cnt user mid = handle_greeting w frm user := by
  unfold dispatch_state
  rw [hstate]
  rfl

lemma dispatch_greeting_content (w : World) (frm cnt : String) (user : UserRec)
    (mid : String) (hgr : is_greeting cnt = true) :
    dispatch_state w frm cnt user mid = handle_greeting w frm user := by
  unfold dispatch_state
  rw [hgr]
  simp [Bool.or_true]

lemma dispatch_waiting_issue (w : World) (frm cnt : String) (user : UserRec)
    (mid : String) (hstate : get_conversation_state w frm = "waiting_issue")
    (hgr : is_greeting cnt = false) :
    dispatch_state w frm cnt user mid =
      if is_issue_report cnt then handle_issue_description w frm cnt user
      else handle_invalid_issue w frm := by
  unfold dispatch_state
  rw [hstate, hgr]
  rfl

lemma dispatch_waiting_location (w : World) (frm cnt : String) (user : UserRec)
    (mid : String) (hstate : get_conversation_state w frm = "waiting_location")
    (hgr : is_greeting cnt = false) :
    dispatch_state w frm cnt user mid = handle_location_input w frm cnt user := by
  unfold dispatch_state
  rw [hstate, hgr]
  rfl

lemma dispatch_waiting_category (w : World) (frm cnt : String) (user : UserRec)
    (mid : String) (hstate : get_conversation_state w frm = "waiting_category")
    (hgr : is_greeting cnt = false) :
    dispatch_state w frm cnt user mid = handle_category_selection w frm cnt user := by
  unfold dispatch_state
  rw [hstate, hgr]
  rfl

lemma dispatch_confirmation (w : World) (frm cnt : String) (user : UserRec)
    (mid : String) (hstate : get_conversation_state w frm = "confirmation")
    (hgr : is_greeting cnt = false) :
    dispatch_state w frm cnt user mid = handle_confirmation w frm cnt user := by
  unfold dispatch_state
  rw [hstate, hgr]
  rfl

lemma dispatch_complete (w : World) (frm cnt : String) (user : UserRec)
    (mid : String) (hstate : get_conversation_state w frm = "complete")
    (hgr : is_greeting cnt = false) :
    dispatch_state w frm cnt user mid =
      if is_issue_report cnt then handle_direct_issue_report w frm cnt user mid
      else handle_greeting w frm user := by
  unfold dispatch_state
  rw [hstate, hgr]
  rfl

/-! ### Ledger membership lemmas -/

lemma any_mid_map (l : List WhatsAppMsg) (g : WhatsAppMsg → WhatsAppMsg)
    (hg : ∀ x, (g x).message_id = x.message_id) (mid : String) :
    (l.map g).any (fun x => x.message_id == mid) =
      l.any (fun x => x.message_id == mid) := by
  induction l with
  | nil => rfl
  | cons a t ih => simp [List.any_cons, hg, ih]

lemma ledger_has_insert (w : World) (mid frm cnt : String) :
    ledger_has (insert_message w mid frm cnt) mid = true := by
  unfold ledger_has insert_message incoming_row
  simp [List.any_append]

lemma ledger_has_ledger_update (w : World) (mid' : String)
    (f : WhatsAppMsg → WhatsAppMsg) (hf : ∀ x, (f x).message_id = x.message_id)
    (mid : String) :
    ledger_has (ledger_update w mid' f) mid = ledger_has w mid := by
  unfold ledger_has ledger_update
  refine any_mid_map w.ledger _ ?_ mid
  intro x
  by_cases h : (x.message_id == mid') = true <;> simp [h, hf]

lemma ledger_has_handle_confirmation (w : World) (p cnt : String) (u : UserRec)
    (mid : String) :
    ledger_has (handle_confirmation w p cnt u).1 mid = ledger_has w mid := by
  unfold handle_confirmation handle_greeting
  generalize get_temp_data w p = t
  rcases t with ⟨d, lo, ca⟩
  dsimp only
  cases d <;> cases ca <;> cases lo
  all_goals repeat' split
  all_goals rfl

lemma ledger_has_handle_direct (w : World) (p cnt : String) (u : UserRec)
    (mid' mid : String) :
    ledger_has (handle_direct_issue_report w p cnt u mid').1 mid =
      ledger_has w mid := by
  unfold handle_direct_issue_report
  dsimp only
  split
  · rfl
  · exact ledger_has_ledger_update _ mid'
      (fun x => { x with
        created_issue := some (create_issue w u (direct_title cnt) cnt
          ((auto_categorize w.categories cnt).map CategoryRec.slug)
          (match extract_location cnt with
           | some l => l
           | none => if u.location ≠ "" then u.location else "FCT")
          "whatsapp" (some mid') (some p)).1.pk,
        is_processed := true })
      (fun _ => rfl) mid

lemma ledger_has_dispatch (w : World) (frm cnt : String) (u : UserRec)
    (mid' mid : String) :
    ledger_has (dispatch_state w frm cnt u mid').1 mid = ledger_has w mid := by
  unfold dispatch_state
  dsimp only
  repeat' split
  all_goals
    first
      | exact ledger_has_handle_confirmation w frm cnt u mid
      | exact ledger_has_handle_direct w frm cnt u mid' mid
      | rfl



lemma ledger_has_attached (w : World) (mid frm cnt : String)
    (cs : List Contact) :
    ledger_has (attached_world w mid frm cnt cs) mid = true := by
  unfold attached_world
  rw [ledger_has_ledger_update _ mid
    (fun x => { x with user := some (attached_user w mid frm cnt cs).username })
    (fun _ => rfl) mid]
  have h : ledger_has (find_or_create_user (insert_message w mid frm cnt) frm cs).2 mid
      = ledger_has (insert_message w mid frm cnt) mid := by
    unfold ledger_has
    rw [fu_ledger]
  rw [h]
  exact ledger_has_insert w mid frm cnt

lemma ledger_has_process_extracted (w : World) (mid frm cnt : String)
    (cs : List Contact) :
    ledger_has (process_extracted w mid frm cnt cs).1 mid = true := by
  cases hdup : ledger_has w mid with
  | true =>
    unfold process_extracted
    rw [hdup]
    simpa using hdup
  | false =>
    cases hop : w.fail_user_op with
    | true =>
      rw [process_extracted_user_failure w mid frm cnt cs hdup hop]
      show ledger_has (ledger_update (insert_message w mid frm cnt) mid _) mid = true
      rw [ledger_has_ledger_update _ mid
        (fun x => { x with processing_error := "find_or_create_user raised" })
        (fun _ => rfl) mid]
      exact ledger_has_insert w mid frm cnt
    | false =>
      rw [process_extracted_fresh w mid frm cnt cs hdup hop]
      rw [ledger_has_dispatch _ frm cnt _ mid mid]
      exact ledger_has_attached w mid frm cnt cs

/-! ### Session store and intake lemmas -/

lemma find_map_set {α : Type} (l : List (String × α)) (p : String) (v : α)
    (h : l.any (fun e => e.1 == p) = true) :
    ((l.map (fun e => if e.1 == p then (p, v) else e)).find?
        (fun e => e.1 == p)) = some (p, v) := by
  induction l with
  | nil => cases h
  | cons a t ih =>
    rw [List.map_cons]
    by_cases ha : (a.1 == p) = true
    · rw [if_pos ha]
      exact List.find?_cons_of_pos _ (beq_self_eq_true p)
    · have ht : t.any (fun e => e.1 == p) = true := by
        rcases (List.any_eq_true.mp h) with ⟨x, hx, hpx⟩
        rcases hx with _ | hx
        · exact absurd hpx ha
        · exact List.any_eq_true.mpr ⟨x, by assumption, hpx⟩
      rw [if_neg ha, List.find?_cons_of_neg _ (by simpa using ha)]
      exact ih ht

lemma find_append_missing {α : Type} (l : List (String × α)) (p : String)
    (v : α) (h : l.any (fun e => e.1 == p) = false) :
    (((l ++ [(p, v)]).find? (fun e => e.1 == p))) = some (p, v) := by
  induction l with
  | nil =>
    rw [List.nil_append]
    exact List.find?_cons_of_pos _ (beq_self_eq_true p)
  | cons a t ih =>
    have ha : (a.1 == p) = false := by
      cases hb : (a.1 == p)
      · rfl
      · rw [List.any_cons, hb, Bool.true_or] at h
        cases h
    have ht : t.any (fun e => e.1 == p) = false := by
      rw [List.any_cons, ha, Bool.false_or] at h
      exact h
    rw [List.cons_append, List.find?_cons_of_neg _ (by simpa using ha)]
    exact ih ht

lemma find_set_assoc {α : Type} (l : List (String × α)) (p : String) (v : α) :
    ((set_assoc l p v).find? (fun e => e.1 == p)) = some (p, v) := by
  unfold set_assoc
  split
  case isTrue h => exact find_map_set l p v h
  case isFalse h =>
    refine find_append_missing l p v ?_
    cases hb : l.any (fun e => e.1 == p)
    · rfl
    · exact absurd hb h

lemma find_filter_out {α : Type} (l : List (String × α)) (p : String) :
    ((l.filter (fun e => !(e.1 == p))).find? (fun e => e.1 == p)) = none := by
  induction l with
  | nil => rfl
  | cons a t ih =>
    rw [List.filter_cons]
    by_cases ha : (a.1 == p) = true
    · rw [if_neg (by rw [ha]; exact (by decide : ¬((!true) = true)))]
      exact ih
    · have ha' : (a.1 == p) = false := by
        cases hb : (a.1 == p)
        · rfl
        · exact absurd hb ha
      rw [if_pos (by rw [ha']; rfl), List.find?_cons_of_neg _ (by simpa using ha')]
      exact ih

lemma now_lt_ttl (n : Nat) : n < n + cache_ttl := by
  unfold cache_ttl
  omega

lemma gcs_after_set (w : World) (p s : String) :
    get_conversation_state (set_conversation_state w p s) p = s := by
  unfold get_conversation_state set_conversation_state lookup_state
  rw [find_set_assoc]
  show (if w.now < w.now + cache_ttl then s else "greeting") = s
  rw [if_pos (now_lt_ttl w.now)]

lemma gtd_after_store (w : World) (p : String) (k : TempKey) (v : String) :
    get_temp_data (store_temp_data w p k v) p = (get_temp_data w p).set k v := by
  unfold get_temp_data store_temp_data lookup_temp
  rw [find_set_assoc]
  show (if w.now < w.now + cache_ttl then (get_temp_data w p).set k v else {}) = _
  rw [if_pos (now_lt_ttl w.now)]
  rfl

lemma gtd_after_clear (w : World) (p : String) :
    get_temp_data (clear_temp_data w p) p = {} := by
  unfold get_temp_data clear_temp_data lookup_temp
  rw [find_filter_out]
  rfl

lemma assign_agency_fields (w : World) (i : Issue) :
    (assign_agency w i).pk = i.pk ∧
    (assign_agency w i).created_year = i.created_year ∧
    (assign_agency w i).title = i.title ∧
    (assign_agency w i).content = i.content ∧
    (assign_agency w i).author = i.author ∧
    (assign_agency w i).category = i.category ∧
    (assign_agency w i).location = i.location ∧
    (assign_agency w i).source = i.source ∧
    (assign_agency w i).whatsapp_message_id = i.whatsapp_message_id ∧
    (assign_agency w i).whatsapp_sender_number = i.whatsapp_sender_number := by
  rcases i with ⟨pk, yr, t, c, au, cat, ag, st, loc, src, wmi, wph⟩
  unfold assign_agency
  cases cat with
  | none => exact ⟨rfl, rfl, rfl, rfl, rfl, rfl, rfl, rfl, rfl, rfl⟩
  | some cc =>
    dsimp only
    cases (w.agency_for.find? (fun e => e.1 == cc.slug)).map (fun e => e.2) with
    | none => exact ⟨rfl, rfl, rfl, rfl, rfl, rfl, rfl, rfl, rfl, rfl⟩
    | some a => exact ⟨rfl, rfl, rfl, rfl, rfl, rfl, rfl, rfl, rfl, rfl⟩

lemma create_issue_fst (w : World) (au : UserRec) (t c : String)
    (sl : Option String) (loc src : String) (wmi wph : Option String) :
    (create_issue w au t c sl loc src wmi wph).1 =
      assign_agency w
        { pk := w.uuid_seq.headD "", created_year := w.year, title := t,
          content := c, author := au.username,
          category := resolve_category w.categories sl,
          assigned_agency := none, status := "pending", location := loc,
          source := src, whatsapp_message_id := wmi,
          whatsapp_sender_number := wph } := rfl

lemma create_issue_issues (w : World) (au : UserRec) (t c : String)
    (sl : Option String) (loc src : String) (wmi wph : Option String) :
    ((create_issue w au t c sl loc src wmi wph).2).issues =
      w.issues ++ [(create_issue w au t c sl loc src wmi wph).1] := rfl

lemma py_slice_of_le (s : String) (n : Nat) (h : s.length ≤ n) :
    py_slice s n = s := by
  unfold py_slice
  rw [show s.toList = s.data from rfl, List.take_of_length_le h]

lemma length_append_dots (s : String) : (s ++ "...").length = s.length + 3 := by
  show (s.data ++ "...".data).length = s.data.length + 3
  rw [List.length_append]
  rfl

lemma append_dots_ne (s : String) : s ++ "..." ≠ s := by
  intro h
  have h2 := congrArg String.length h
  rw [length_append_dots] at h2
  omega

lemma find_error_after_update (l : List WhatsAppMsg) (mid : String)
    (row : WhatsAppMsg) (hrow : row.message_id = mid)
    (hfresh : l.any (fun x => x.message_id == mid) = false)
    (g : WhatsAppMsg → WhatsAppMsg) (hg : ∀ x, (g x).message_id = x.message_id) :
    (((l ++ [row]).map (fun x => if x.message_id == mid then g x else x)).find?
        (fun x => x.message_id == mid)) = some (g row) := by
  induction l with
  | nil =>
    rw [List.nil_append, List.map_cons, List.map_nil,
      if_pos (by rw [hrow]; exact beq_self_eq_true mid)]
    exact List.find?_cons_of_pos _ (by rw [hg, hrow]; exact beq_self_eq_true mid)
  | cons a t ih =>
    have ha : (a.message_id == mid) = false := by
      cases hb : (a.message_id == mid)
      · rfl
      · rw [List.any_cons, hb, Bool.true_or] at hfresh
        cases hfresh
    have ht : t.any (fun x => x.message_id == mid) = false := by
      rw [List.any_cons, ha, Bool.false_or] at hfresh
      exact hfresh
    rw [List.cons_append, List.map_cons, if_neg (by rw [ha]; exact Bool.false_ne_true),
      List.find?_cons_of_neg _ (by simpa using ha)]
    exact ih ht

/-! ### Demo fixtures for witnesses and counterexamples -/

/-- A small concrete world: empty tables, active categories, no injected
failures. -/
def demo_world : World :=
  { now := 1000, year := 2025, ledger := [], users := [],
    state_cache := [], temp_cache := [], issues := [],
    uuid_seq := ["aaaa-bbbb-cccc", "dddd-eeee-ffff"], outbox := [],
    categories := [⟨"Electricity", "electricity", true⟩,
                   ⟨"Roads & Transport", "roads", true⟩,
                   ⟨"Water & Sanitation", "water", true⟩],
    agency_for := [], frontend_url := "https://fct.example",
    fail_create_issue := false, fail_user_op := false }

/-- A plain text webhook message entry. -/
def demo_text (mid frm body : String) : RawMessage :=
  { id := some mid, from_number := some frm, mtype := some "text",
    text_body := some body, interactive := none }

/-- A button-reply webhook message entry. -/
def demo_button (mid frm sel : String) : RawMessage :=
  { id := some mid, from_number := some frm, mtype := some "interactive",
    text_body := none, interactive := some ⟨some sel, none⟩ }

/-! ### The claims -/

/-- C1: once an inbound message identifier is recorded in the ledger,
processing a delivery with that identifier returns the duplicate status
and the world is returned exactly as it was — same session state, same
draft, no outbound message, no issue-creation attempt. Together with the
first conjunct (any successful processing leaves the identifier in the
ledger), processing the same delivery twice yields exactly one
issue-creation attempt: all effects happen on the first run and the
second is a no-op. -/
theorem c1_duplicate_idempotent (w : World) (m : RawMessage)
    (cs : List Contact) (mid frm cnt : String)
    (hx : extract_content m = .ok (mid, frm, cnt)) :
    (∀ w1 r1, process_single w m cs = .ok (w1, r1) → ledger_has w1 mid = true) ∧
    (ledger_has w mid = true →
      process_single w m cs = .ok (w, .duplicate mid)) := by
  constructor
  · intro w1 r1 h
    rw [process_single_ok w m cs mid frm cnt hx] at h
    have h2 : process_extracted w mid frm cnt cs = (w1, r1) := Except.ok.inj h
    rw [show w1 = (process_extracted w mid frm cnt cs).1 from by rw [h2]]
    exact ledger_has_process_extracted w mid frm cnt cs
  · intro hdup
    rw [process_single_ok w m cs mid frm cnt hx]
    unfold process_extracted
    rw [hdup]
    rfl

/-- C1 witness: a world whose ledger already holds `M1`; the second
delivery of `M1` is reported duplicate and the world is unchanged. -/
theorem c1_witness :
    ledger_has { demo_world with
        ledger := [incoming_row "M1" "2348012345678" "hello"] } "M1" = true ∧
    process_single
        { demo_world with
          ledger := [incoming_row "M1" "2348012345678" "hello"] }
        (demo_text "M1" "2348012345678" "hello") [] =
      .ok ({ demo_world with
              ledger := [incoming_row "M1" "2348012345678" "hello"] },
           .duplicate "M1") :=
  ⟨by decide,
   (c1_duplicate_idempotent
      { demo_world with ledger := [incoming_row "M1" "2348012345678" "hello"] }
      (demo_text "M1" "2348012345678" "hello") [] "M1" "2348012345678" "hello"
      rfl).2 (by decide)⟩

/-- C2: a sender at `confirmation` replying `confirm_yes` while
`create_issue` raises: the processing returns the `creation_error`
status, the session state still reads `confirmation`, the draft dict is
untouched, no issue row is created, and exactly one outbound message —
the retry prompt — is sent. -/
theorem c2_creation_failure_keeps_state (w : World) (m : RawMessage)
    (cs : List Contact) (mid frm d l c : String)
    (hx : extract_content m = .ok (mid, frm, "confirm_yes"))
    (hfresh : ledger_has w mid = false)
    (hops : w.fail_user_op = false)
    (hcf : w.fail_create_issue = true)
    (hstate : get_conversation_state w frm = "confirmation")
    (htemp : get_temp_data w frm =
      { issue_description := some d, location := some l, category := some c }) :
    ∃ w', process_single w m cs = .ok (w', .creation_error "create_issue raised") ∧
      get_conversation_state w' frm = "confirmation" ∧
      get_temp_data w' frm = get_temp_data w frm ∧
      w'.issues = w.issues ∧
      w'.outbox = w.outbox ++ [OutMsg.text frm creation_error_message] := by
  have hgr : is_greeting "confirm_yes" = false := by decide
  rw [process_single_ok w m cs mid frm "confirm_yes" hx,
      process_extracted_fresh w mid frm "confirm_yes" cs hfresh hops,
      dispatch_confirmation _ frm "confirm_yes" _ mid
        ((attached_gcs w mid frm "confirm_yes" cs frm).trans hstate) hgr]
  unfold handle_confirmation
  rw [if_pos (show (("confirm_yes" : String) == "confirm_yes") = true from rfl)]
  rw [(attached_gtd w mid frm "confirm_yes" cs frm).trans htemp]
  dsimp only
  rw [if_pos ((attached_fail_create_issue w mid frm "confirm_yes" cs).trans hcf)]
  refine ⟨_, rfl, ?_, ?_, ?_, ?_⟩
  · exact (gcs_congr _ _ frm rfl rfl).trans
      ((attached_gcs w mid frm "confirm_yes" cs frm).trans hstate)
  · exact (gtd_congr _ _ frm rfl rfl).trans (attached_gtd w mid frm "confirm_yes" cs frm)
  · exact attached_issues w mid frm "confirm_yes" cs
  · rw [show (send_message (attached_world w mid frm "confirm_yes" cs) frm
        creation_error_message).outbox
      = (attached_world w mid frm "confirm_yes" cs).outbox ++
        [OutMsg.text frm creation_error_message] from rfl,
      attached_outbox]

/-- A world mid-conversation at `confirmation` with a full draft, where
`create_issue` is set to raise. -/
def c2_world : World :=
  { demo_world with
    fail_create_issue := true,
    state_cache := [("2348012345678", ("confirmation", 4600))],
    temp_cache := [("2348012345678",
      ({ issue_description := some "Big pothole near Wuse market junction",
         location := some "Wuse", category := some "roads" }, 4600))] }

/-- C2 witness: the failing `confirm_yes` at a concrete world. -/
theorem c2_witness :
    ∃ w', process_single c2_world (demo_button "M2" "2348012345678" "confirm_yes") [] =
        .ok (w', .creation_error "create_issue raised") ∧
      get_conversation_state w' "2348012345678" = "confirmation" ∧
      get_temp_data w' "2348012345678" = get_temp_data c2_world "2348012345678" ∧
      w'.issues = c2_world.issues ∧
      w'.outbox = c2_world.outbox ++
        [OutMsg.text "2348012345678" creation_error_message] :=
  c2_creation_failure_keeps_state c2_world
    (demo_button "M2" "2348012345678" "confirm_yes") [] "M2" "2348012345678"
    "Big pothole near Wuse market junction" "Wuse" "roads"
    rfl (by decide) rfl rfl rfl rfl

/-- C6 counterexample: a valid inbound issue report whose processing
raises (user resolution fails). A status result is returned and the
error is caught — but the outbox stays empty: the sender gets no
error message, contradicting the claim that every failure path sends a
human-readable reply. -/
theorem c6_counterexample :
    (process_single { demo_world with fail_user_op := true }
        (demo_text "M6" "2348012345678" "There is a big problem with water here")
        []).toOption.map (fun p => (p.2.status, p.1.outbox.length)) =
      some ("error", 0) := by
  rfl

/-- C6 amended: when an exception is raised inside the inner handler
(user resolution fails), processing still returns a status result, the
error text is recorded on the ledger row of the message identifier, and
the session state, draft, issues and outbox are unchanged — in
particular no error message is sent to the sender on this generic path
(only the `confirmation`-submit failure path sends a retry prompt). -/
theorem c6_generic_error_caught_but_silent (w : World) (m : RawMessage)
    (cs : List Contact) (mid frm cnt : String)
    (hx : extract_content m = .ok (mid, frm, cnt))
    (hfresh : ledger_has w mid = false)
    (hops : w.fail_user_op = true) :
    ∃ w', process_single w m cs =
        .ok (w', .error_id mid "find_or_create_user raised") ∧
      w'.state_cache = w.state_cache ∧
      w'.temp_cache = w.temp_cache ∧
      w'.issues = w.issues ∧
      w'.outbox = w.outbox ∧
      ((w'.ledger.find? (fun x => x.message_id == mid)).map
        (fun x => x.processing_error)) = some "find_or_create_user raised" := by
  rw [process_single_ok w m cs mid frm cnt hx,
      process_extracted_user_failure w mid frm cnt cs hfresh hops]
  refine ⟨_, rfl, rfl, rfl, rfl, rfl, ?_⟩
  show (((w.ledger ++ [incoming_row mid frm cnt]).map
      (fun x => if x.message_id == mid then
        { x with processing_error := "find_or_create_user raised" } else x)).find?
      (fun x => x.message_id == mid)).map (fun x => x.processing_error) =
    some "find_or_create_user raised"
  rw [find_error_after_update w.ledger mid (incoming_row mid frm cnt) rfl hfresh
    (fun x => { x with processing_error := "find_or_create_user raised" })
    (fun _ => rfl)]
  rfl

/-- C6 witness: the amended behaviour at the concrete failing world. -/
theorem c6_witness :
    ∃ w', process_single { demo_world with fail_user_op := true }
        (demo_text "M6" "2348012345678" "There is a big problem with water here")
        [] = .ok (w', .error_id "M6" "find_or_create_user raised") ∧
      w'.state_cache = demo_world.state_cache ∧
      w'.temp_cache = demo_world.temp_cache ∧
      w'.issues = demo_world.issues ∧
      w'.outbox = demo_world.outbox ∧
      ((w'.ledger.find? (fun x => x.message_id == "M6")).map
        (fun x => x.processing_error)) = some "find_or_create_user raised" :=
  c6_generic_error_caught_but_silent { demo_world with fail_user_op := true }
    (demo_text "M6" "2348012345678" "There is a big problem with water here")
    [] "M6" "2348012345678" "There is a big problem with water here"
    rfl (by decide) rfl

/-- A message entry with no `id` key. -/
def c7_bad_msg : RawMessage :=
  { id := none, from_number := some "2348000000001", mtype := some "text",
    text_body := some "Water pipe burst on Kubwa road", interactive := none }

/-- A webhook batch: the malformed entry followed by a well-formed
sibling. -/
def c7_hook : WebhookData :=
  { entry := [{ changes := [{
      value_messages := some [c7_bad_msg, demo_text "M7b" "2348000000002" "hello"],
      value_contacts := [] }] }] }

/-- C7 counterexample: a batch whose first entry is malformed (missing
`id`) followed by a well-formed sibling. The whole call returns a single
error dict and the sibling is never processed: the ledger stays empty. -/
theorem c7_counterexample :
    (process_incoming_message demo_world c7_hook).2.status = "error" ∧
    (process_incoming_message demo_world c7_hook).1.ledger.length = 0 := by
  exact ⟨rfl, rfl⟩

/-- C7 amended: a malformed first entry (extraction raises `KeyError`)
aborts the whole batch: `process_incoming_message` returns the single
error dict of the outer catch, the world is unchanged, and the sibling
entries after it are not processed at all. -/
theorem c7_malformed_entry_aborts_batch (w : World) (hook : WebhookData)
    (e : WebhookEntry) (ch : WebhookChange) (m1 : RawMessage)
    (rest : List RawMessage) (err : String)
    (hhead : hook.entry.head? = some e)
    (hch : e.changes.head? = some ch)
    (hmsgs : ch.value_messages = some (m1 :: rest))
    (hx : extract_content m1 = .error err) :
    process_incoming_message w hook = (w, .error err) := by
  unfold process_incoming_message
  simp only [hhead, hch, hmsgs]
  unfold process_batch process_single
  rw [hx]

/-- C7 witness: the amended behaviour at the concrete malformed batch. -/
theorem c7_witness :
    process_incoming_message demo_world c7_hook =
      (demo_world, .error "KeyError: id") :=
  c7_malformed_entry_aborts_batch demo_world c7_hook _ _ c7_bad_msg
    [demo_text "M7b" "2348000000002" "hello"] "KeyError: id"
    rfl rfl rfl rfl

/-- A world mid-conversation at `waiting_category` with description and
location already drafted. -/
def c5_world : World :=
  { demo_world with
    state_cache := [("2348012345678", ("waiting_category", 4600))],
    temp_cache := [("2348012345678",
      ({ issue_description := some "Big pothole near Wuse market junction",
         location := some "Wuse", category := none }, 4600))] }

/-- C5 counterexample: an unrecognized selector in `waiting_category`
does transition the state (to `confirmation`) and is stored verbatim as
the draft category — contradicting the claim that the state stays
`waiting_category` and no draft field is set. -/
theorem c5_counterexample :
    (process_single c5_world
        (demo_text "M5" "2348012345678" "totally_bogus_selector") []).toOption.map
      (fun p => (p.2.status, get_conversation_state p.1 "2348012345678",
        (get_temp_data p.1 "2348012345678").category)) =
    some ("confirmation_sent", "confirmation", some "totally_bogus_selector") := by
  rfl

/-- C5 amended: `_handle_category_selection` performs no validation —
every non-greeting selector received in `waiting_category` (recognized
or not) is stored verbatim as the draft category, the state moves to
`confirmation`, and the confirm/restart buttons are sent; an invalid
value is only resolved (possibly to no category) at creation time. -/
theorem c5_any_selector_stored (w : World) (m : RawMessage)
    (cs : List Contact) (mid frm cnt : String)
    (hx : extract_content m = .ok (mid, frm, cnt))
    (hfresh : ledger_has w mid = false)
    (hops : w.fail_user_op = false)
    (hstate : get_conversation_state w frm = "waiting_category")
    (hgr : is_greeting cnt = false) :
    ∃ w', process_single w m cs = .ok (w', .confirmation_sent frm "confirmation") ∧
      get_conversation_state w' frm = "confirmation" ∧
      get_temp_data w' frm = (get_temp_data w frm).set .category cnt ∧
      ∃ body, w'.outbox = w.outbox ++
        [OutMsg.buttons frm body confirmation_button_ids] := by
  rw [process_single_ok w m cs mid frm cnt hx,
      process_extracted_fresh w mid frm cnt cs hfresh hops,
      dispatch_waiting_category _ frm cnt _ mid
        ((attached_gcs w mid frm cnt cs frm).trans hstate) hgr]
  unfold handle_category_selection
  refine ⟨_, rfl, ?_, ?_, ?_⟩
  · exact gcs_after_set _ frm "confirmation"
  · show get_temp_data (store_temp_data (attached_world w mid frm cnt cs) frm
        TempKey.category cnt) frm = (get_temp_data w frm).set TempKey.category cnt
    rw [gtd_after_store (attached_world w mid frm cnt cs) frm TempKey.category cnt,
        attached_gtd w mid frm cnt cs frm]
  · exact ⟨_, by rw [← attached_outbox w mid frm cnt cs]; rfl⟩

/-- C5 witness: the amended behaviour at the concrete bogus selector. -/
theorem c5_witness :
    ∃ w', process_single c5_world
        (demo_text "M5" "2348012345678" "totally_bogus_selector") [] =
        .ok (w', .confirmation_sent "2348012345678" "confirmation") ∧
      get_conversation_state w' "2348012345678" = "confirmation" ∧
      get_temp_data w' "2348012345678" =
        (get_temp_data c5_world "2348012345678").set .category
          "totally_bogus_selector" ∧
      ∃ body, w'.outbox = c5_world.outbox ++
        [OutMsg.buttons "2348012345678" body confirmation_button_ids] :=
  c5_any_selector_stored c5_world
    (demo_text "M5" "2348012345678" "totally_bogus_selector") []
    "M5" "2348012345678" "totally_bogus_selector"
    rfl (by decide) rfl rfl (by decide)

/-- C9: (1) a stored session entry whose expiry has passed reads back as
the default `greeting` state, as does an absent entry; and (2) whenever
the state reads `greeting` — absent, expired or fresh sender — or the
message text is a greeting regardless of the stored state, processing
restarts at greeting handling: the interactive welcome with the three
option buttons is sent and the next state is `waiting_issue`. -/
theorem c9_expiry_and_greeting_restart (w : World) (m : RawMessage)
    (cs : List Contact) (mid frm cnt : String)
    (hx : extract_content m = .ok (mid, frm, cnt))
    (hfresh : ledger_has w mid = false)
    (hops : w.fail_user_op = false) :
    (∀ s expiry, lookup_state w frm = some (s, expiry) → expiry ≤ w.now →
      get_conversation_state w frm = "greeting") ∧
    (lookup_state w frm = none → get_conversation_state w frm = "greeting") ∧
    ((get_conversation_state w frm = "greeting" ∨ is_greeting cnt = true) →
      ∃ w', process_single w m cs = .ok (w', .greeting_sent frm "waiting_issue") ∧
        get_conversation_state w' frm = "waiting_issue" ∧
        w'.outbox = w.outbox ++
          [OutMsg.buttons frm welcome_body welcome_button_ids]) := by
  refine ⟨?_, ?_, ?_⟩
  · intro s expiry hlk hle
    unfold get_conversation_state
    rw [hlk]
    show (if w.now < expiry then s else "greeting") = "greeting"
    rw [if_neg (Nat.not_lt.mpr hle)]
  · intro hlk
    unfold get_conversation_state
    rw [hlk]
  · intro hg
    rw [process_single_ok w m cs mid frm cnt hx,
        process_extracted_fresh w mid frm cnt cs hfresh hops]
    have hred : dispatch_state (attached_world w mid frm cnt cs) frm cnt
        (attached_user w mid frm cnt cs) mid =
        handle_greeting (attached_world w mid frm cnt cs) frm
          (attached_user w mid frm cnt cs) := by
      rcases hg with hst | hgr
      · exact dispatch_greeting_state _ frm cnt _ mid
          ((attached_gcs w mid frm cnt cs frm).trans hst)
      · exact dispatch_greeting_content _ frm cnt _ mid hgr
    rw [hred]
    unfold handle_greeting
    refine ⟨_, rfl, ?_, ?_⟩
    · exact (gcs_congr _ _ frm rfl rfl).trans (gcs_after_set _ frm "waiting_issue")
    · rw [← attached_outbox w mid frm cnt cs]
      rfl

/-- A world with a session at `confirmation` whose entry expired 400
seconds ago. -/
def c9_world : World :=
  { demo_world with
    now := 5000
    state_cache := [("2348012345678", ("confirmation", 4600))] }

/-- C9 witness: the expired entry reads back `greeting` and the next
message restarts at greeting handling. -/
theorem c9_witness :
    get_conversation_state c9_world "2348012345678" = "greeting" ∧
    (∃ w', process_single c9_world (demo_text "M9" "2348012345678" "Anything at all")
        [] = .ok (w', .greeting_sent "2348012345678" "waiting_issue") ∧
      get_conversation_state w' "2348012345678" = "waiting_issue" ∧
      w'.outbox = c9_world.outbox ++
        [OutMsg.buttons "2348012345678" welcome_body welcome_button_ids]) :=
  ⟨(c9_expiry_and_greeting_restart c9_world
      (demo_text "M9" "2348012345678" "Anything at all") []
      "M9" "2348012345678" "Anything at all" rfl (by decide) rfl).1
      "confirmation" 4600 (by decide) (by decide),
   (c9_expiry_and_greeting_restart c9_world
      (demo_text "M9" "2348012345678" "Anything at all") []
      "M9" "2348012345678" "Anything at all" rfl (by decide) rfl).2.2
      (Or.inl rfl)⟩

/-- A world at `confirmation` with a complete draft and working
collaborators. -/
def c4_world : World :=
  { demo_world with
    state_cache := [("2348012345678", ("confirmation", 4600))],
    temp_cache := [("2348012345678",
      ({ issue_description := some "Big pothole near Wuse market junction",
         location := some "Wuse", category := some "roads" }, 4600))] }

/-- C4 counterexample: after a successful `confirm_yes` submission the
session is not cleared — a state entry for the sender remains in the
store and reads back `complete` (an absent/cleared session would read
back the default `greeting`). -/
theorem c4_counterexample :
    (process_single c4_world (demo_button "M4" "2348012345678" "confirm_yes")
        []).toOption.map
      (fun p => (p.2.status, get_conversation_state p.1 "2348012345678",
        (lookup_state p.1 "2348012345678").isSome)) =
      some ("issue_created", "complete", true) := by
  rfl

/-- C4 amended: on `confirm_yes` with a working pipeline, an issue is
created whose title, content, location and category come from the
accumulated draft (the category slug resolved against the active
categories), the draft dict is cleared, the session state is set to
`complete` (not cleared — the conversation restarts only implicitly),
and the sender is sent a message carrying the issue reference number. -/
theorem c4_confirm_creates_issue (w : World) (m : RawMessage)
    (cs : List Contact) (mid frm d l c : String)
    (hx : extract_content m = .ok (mid, frm, "confirm_yes"))
    (hfresh : ledger_has w mid = false)
    (hops : w.fail_user_op = false)
    (hcf : w.fail_create_issue = false)
    (hstate : get_conversation_state w frm = "confirmation")
    (htemp : get_temp_data w frm =
      { issue_description := some d, location := some l, category := some c }) :
    ∃ w' issue, process_single w m cs =
        .ok (w', .issue_created frm issue.pk issue.issue_number) ∧
      w'.issues = w.issues ++ [issue] ∧
      issue.title = confirmation_title d ∧
      issue.content = d ∧
      issue.location = l ∧
      issue.category = w.categories.find? (fun cc => cc.slug == c && cc.is_active) ∧
      issue.source = "whatsapp" ∧
      get_temp_data w' frm = {} ∧
      get_conversation_state w' frm = "complete" ∧
      ∃ post, w'.outbox = w.outbox ++
        [OutMsg.text frm (success_head ++ issue.issue_number ++ post)] := by
  have hgr : is_greeting "confirm_yes" = false := by decide
  rw [process_single_ok w m cs mid frm "confirm_yes" hx,
      process_extracted_fresh w mid frm "confirm_yes" cs hfresh hops,
      dispatch_confirmation _ frm "confirm_yes" _ mid
        ((attached_gcs w mid frm "confirm_yes" cs frm).trans hstate) hgr]
  unfold handle_confirmation
  rw [if_pos (show (("confirm_yes" : String) == "confirm_yes") = true from rfl)]
  rw [(attached_gtd w mid frm "confirm_yes" cs frm).trans htemp]
  dsimp only
  rw [if_neg (by
    rw [(attached_fail_create_issue w mid frm "confirm_yes" cs).trans hcf]
    exact Bool.false_ne_true)]
  refine ⟨_, _, rfl, ?_, ?_, ?_, ?_, ?_, ?_, ?_, ?_, ?_⟩
  · show (attached_world w mid frm "confirm_yes" cs).issues ++ _ = _
    rw [attached_issues]
    rfl
  · rw [create_issue_fst]
    exact (assign_agency_fields _ _).2.2.1
  · rw [create_issue_fst]
    exact (assign_agency_fields _ _).2.2.2.1
  · rw [create_issue_fst]
    exact (assign_agency_fields _ _).2.2.2.2.2.2.1
  · rw [create_issue_fst]
    refine ((assign_agency_fields _ _).2.2.2.2.2.1).trans ?_
    show (attached_world w mid frm "confirm_yes" cs).categories.find? _ = _
    rw [attached_categories]
  · rw [create_issue_fst]
    exact (assign_agency_fields _ _).2.2.2.2.2.2.2.1
  · exact (gtd_congr _ _ frm rfl rfl).trans (gtd_after_clear _ frm)
  · exact gcs_after_set _ frm "complete"
  · exact ⟨_, by rw [← attached_outbox w mid frm "confirm_yes" cs]; rfl⟩

/-- C4 witness: the amended behaviour at the concrete confirmed draft. -/
theorem c4_witness :
    ∃ w' issue, process_single c4_world
        (demo_button "M4" "2348012345678" "confirm_yes") [] =
        .ok (w', .issue_created "2348012345678" issue.pk issue.issue_number) ∧
      w'.issues = c4_world.issues ++ [issue] ∧
      issue.title = confirmation_title "Big pothole near Wuse market junction" ∧
      issue.content = "Big pothole near Wuse market junction" ∧
      issue.location = "Wuse" ∧
      issue.category = c4_world.categories.find?
        (fun cc => cc.slug == "roads" && cc.is_active) ∧
      issue.source = "whatsapp" ∧
      get_temp_data w' "2348012345678" = {} ∧
      get_conversation_state w' "2348012345678" = "complete" ∧
      ∃ post, w'.outbox = c4_world.outbox ++
        [OutMsg.text "2348012345678"
          (success_head ++ issue.issue_number ++ post)] :=
  c4_confirm_creates_issue c4_world
    (demo_button "M4" "2348012345678" "confirm_yes") []
    "M4" "2348012345678" "Big pothole near Wuse market junction" "Wuse" "roads"
    rfl (by decide) rfl rfl rfl rfl

/-- The direct-report test message of the specification. -/
def direct_report_text : String :=
  "Transformer exploded on Airport Road, no light for 3 days"

/-- C3 counterexample: a brand-new sender (no session anywhere) sending
the direct issue report is routed to greeting handling — status
`greeting_sent`, next state `waiting_issue`, and no issue is created —
because an absent session reads back the default `greeting` state, whose
dispatch branch wins before the direct-report fallback is ever
considered. -/
theorem c3_counterexample :
    (process_single demo_world
        (demo_text "M3" "2348099999999" direct_report_text) []).toOption.map
      (fun p => (p.2, p.1.issues.length,
        get_conversation_state p.1 "2348099999999")) =
      some (.greeting_sent "2348099999999" "waiting_issue", 0, "waiting_issue") := by
  rfl

lemma direct_report_not_greeting : is_greeting direct_report_text = false := by
  decide

lemma direct_report_is_issue : is_issue_report direct_report_text = true := by
  decide

lemma direct_report_location :
    extract_location direct_report_text = some "Airport Road" := by
  decide

lemma direct_report_short : ¬(direct_report_text.length > 100) := by decide

lemma direct_report_auto_cat (cats : List CategoryRec) (e : CategoryRec)
    (h : cats.find? (fun cc => cc.slug == "electricity" && cc.is_active) = some e) :
    auto_categorize cats direct_report_text = some e := by
  have hw : ((["water", "pipe", "burst", "leak", "borehole", "tap", "drainage",
      "sewage"] : List String).any
        (fun k => str_contains (py_lower direct_report_text) k)) = false := by
    decide
  have he : ((["light", "power", "electricity", "transformer", "cable",
      "outage"] : List String).any
        (fun k => str_contains (py_lower direct_report_text) k)) = true := by
    decide
  unfold auto_categorize category_keywords
  simp only [auto_categorize_go, hw, he, Bool.false_eq_true, if_false, if_true]
  rw [h]

/-- C3 amended: the direct-report fallback fires only for a sender whose
stored state is `complete` (i.e. right after a previous successful
submission), never for a brand-new sender. For such a sender the message
creates an issue immediately — category auto-inferred (`electricity`),
location extracted (`Airport Road`), title the untruncated text — with
no state transition and a single confirmation message, so
`waiting_location`/`waiting_category` are never traversed. A brand-new
sender instead gets the greeting (see the counterexample). -/
theorem c3_direct_report_from_complete (w : World) (m : RawMessage)
    (cs : List Contact) (mid frm : String) (e : CategoryRec)
    (hx : extract_content m = .ok (mid, frm, direct_report_text))
    (hfresh : ledger_has w mid = false)
    (hops : w.fail_user_op = false)
    (hcf : w.fail_create_issue = false)
    (hstate : get_conversation_state w frm = "complete")
    (hcat : w.categories.find?
      (fun cc => cc.slug == "electricity" && cc.is_active) = some e) :
    ∃ w' issue, process_single w m cs =
        .ok (w', .direct_issue_created frm issue.pk) ∧
      w'.issues = w.issues ++ [issue] ∧
      issue.category = some e ∧
      issue.location = "Airport Road" ∧
      issue.content = direct_report_text ∧
      issue.title = direct_report_text ∧
      get_conversation_state w' frm = "complete" ∧
      ∃ body, w'.outbox = w.outbox ++ [OutMsg.text frm body] := by
  have heslug : e.slug = "electricity" := by
    have hp := List.find?_some hcat
    rw [Bool.and_eq_true] at hp
    exact eq_of_beq hp.1
  rw [process_single_ok w m cs mid frm direct_report_text hx,
      process_extracted_fresh w mid frm direct_report_text cs hfresh hops,
      dispatch_complete _ frm direct_report_text _ mid
        ((attached_gcs w mid frm direct_report_text cs frm).trans hstate)
        direct_report_not_greeting]
  rw [if_pos direct_report_is_issue]
  unfold handle_direct_issue_report
  rw [direct_report_location]
  dsimp only
  rw [attached_categories, direct_report_auto_cat w.categories e hcat]
  rw [if_neg (by
    rw [(attached_fail_create_issue w mid frm direct_report_text cs).trans hcf]
    exact Bool.false_ne_true)]
  refine ⟨_, _, rfl, ?_, ?_, ?_, ?_, ?_, ?_, ?_⟩
  · show (attached_world w mid frm direct_report_text cs).issues ++ _ = _
    rw [attached_issues]
    rfl
  · rw [create_issue_fst]
    refine ((assign_agency_fields _ _).2.2.2.2.2.1).trans ?_
    show resolve_category (attached_world w mid frm direct_report_text cs).categories
        (some e.slug) = some e
    unfold resolve_category
    rw [attached_categories, heslug]
    exact hcat
  · rw [create_issue_fst]
    exact (assign_agency_fields _ _).2.2.2.2.2.2.1
  · rw [create_issue_fst]
    exact (assign_agency_fields _ _).2.2.2.1
  · rw [create_issue_fst]
    refine ((assign_agency_fields _ _).2.2.1).trans ?_
    show direct_title direct_report_text = direct_report_text
    unfold direct_title
    rw [if_neg direct_report_short]
  · exact (gcs_congr _ _ frm rfl rfl).trans
      ((attached_gcs w mid frm direct_report_text cs frm).trans hstate)
  · exact ⟨_, by rw [← attached_outbox w mid frm direct_report_text cs]; rfl⟩

/-- A world whose sender has just completed a submission (state
`complete`). -/
def c3_world : World :=
  { demo_world with
    state_cache := [("2348012345678", ("complete", 4600))] }

/-- C3 witness: the amended behaviour at the concrete `complete` world. -/
theorem c3_witness :
    ∃ w' issue, process_single c3_world
        (demo_text "M3b" "2348012345678" direct_report_text) [] =
        .ok (w', .direct_issue_created "2348012345678" issue.pk) ∧
      w'.issues = c3_world.issues ++ [issue] ∧
      issue.category = some ⟨"Electricity", "electricity", true⟩ ∧
      issue.location = "Airport Road" ∧
      issue.content = direct_report_text ∧
      issue.title = direct_report_text ∧
      get_conversation_state w' "2348012345678" = "complete" ∧
      ∃ body, w'.outbox = c3_world.outbox ++ [OutMsg.text "2348012345678" body] :=
  c3_direct_report_from_complete c3_world
    (demo_text "M3b" "2348012345678" direct_report_text) []
    "M3b" "2348012345678" ⟨"Electricity", "electricity", true⟩
    rfl (by decide) rfl rfl rfl (by decide)

lemma power_outage_auto_cat (cats : List CategoryRec) (e : CategoryRec)
    (h : cats.find? (fun cc => cc.slug == "electricity" && cc.is_active) = some e) :
    auto_categorize cats "power outage in my street" = some e := by
  have hw : ((["water", "pipe", "burst", "leak", "borehole", "tap", "drainage",
      "sewage"] : List String).any
        (fun k => str_contains (py_lower "power outage in my street") k)) = false := by
    decide
  have he : ((["light", "power", "electricity", "transformer", "cable",
      "outage"] : List String).any
        (fun k => str_contains (py_lower "power outage in my street") k)) = true := by
    decide
  unfold auto_categorize category_keywords
  simp only [auto_categorize_go, hw, he, Bool.false_eq_true, if_false, if_true]
  rw [h]

/-- C8: the classifiers are plain functions of the text (determinism is
built in); on the spec inputs: `"ok"` is rejected (trimmed length 2 <
10); the Kubwa report is accepted (length ≥ 10 and contains `water`);
`"problem near Gwarinpa estate"` yields the gazetteer entry `Gwarinpa`
(first match in list order); and on `"power outage in my street"` the
category table is scanned in its fixed order — `water` has no match,
`electricity` matches on `power` — so, whenever an active `electricity`
category row exists, the inferred category slug is `electricity`. -/
theorem c8_classifier_values (cats : List CategoryRec) (e : CategoryRec)
    (h : cats.find? (fun cc => cc.slug == "electricity" && cc.is_active) = some e) :
    is_issue_report "ok" = false ∧
    is_issue_report "Water pipe burst on Kubwa road" = true ∧
    extract_location "problem near Gwarinpa estate" = some "Gwarinpa" ∧
    (auto_categorize cats "power outage in my street").map
      (fun cc => cc.slug) = some "electricity" := by
  refine ⟨by decide, by decide, by decide, ?_⟩
  have heslug : e.slug = "electricity" := by
    have hp := List.find?_some h
    rw [Bool.and_eq_true] at hp
    exact eq_of_beq hp.1
  rw [power_outage_auto_cat cats e h]
  dsimp only [Option.map]
  rw [heslug]

/-- C8 witness: the classifier values with a concrete category table. -/
theorem c8_witness :
    is_issue_report "ok" = false ∧
    is_issue_report "Water pipe burst on Kubwa road" = true ∧
    extract_location "problem near Gwarinpa estate" = some "Gwarinpa" ∧
    (auto_categorize demo_world.categories "power outage in my street").map
      (fun cc => cc.slug) = some "electricity" :=
  c8_classifier_values demo_world.categories ⟨"Electricity", "electricity", true⟩
    (by decide)

/-- C10: the step-by-step confirmation path truncates to 100 characters
and appends `"..."` unconditionally, while the direct-report path
appends it only beyond 100 characters; for any text of at most 100
characters the confirmation path yields `text ++ "..."`, the direct path
yields the text itself, and the two differ — identical input text gives
different titles on the two creation paths. Beyond 100 characters the
two agree. -/
theorem c10_title_truncation_discrepancy :
    (∀ s : String, s.length ≤ 100 →
      confirmation_title s = s ++ "..." ∧ direct_title s = s ∧
        confirmation_title s ≠ direct_title s) ∧
    (∀ s : String, 100 < s.length → confirmation_title s = direct_title s) := by
  constructor
  · intro s h
    have h1 : confirmation_title s = s ++ "..." := by
      unfold confirmation_title
      rw [py_slice_of_le s 100 h]
    have h2 : direct_title s = s := by
      unfold direct_title
      rw [if_neg (by omega)]
    refine ⟨h1, h2, ?_⟩
    rw [h1, h2]
    exact append_dots_ne s
  · intro s h
    unfold confirmation_title direct_title
    rw [if_pos h]

/-- C10 witness: at the 37-character draft text both titles are computed
and differ; at a 101-character text they agree. -/
theorem c10_witness :
    (confirmation_title "Big pothole near Wuse market junction" =
        "Big pothole near Wuse market junction" ++ "..." ∧
      direct_title "Big pothole near Wuse market junction" =
        "Big pothole near Wuse market junction" ∧
      confirmation_title "Big pothole near Wuse market junction" ≠
        direct_title "Big pothole near Wuse market junction") ∧
    confirmation_title (String.mk (List.replicate 101 'a')) =
      direct_title (String.mk (List.replicate 101 'a')) :=
  ⟨c10_title_truncation_discrepancy.1 "Big pothole near Wuse market junction"
      (by decide),
   c10_title_truncation_discrepancy.2 (String.mk (List.replicate 101 'a'))
      (by decide)⟩

end TPSQ
